import Mathlib

/-!
# Verification of the ScholarSync student tracker (src/student_tracker.py)

A shallow embedding of the pure/stateful core of `student_tracker.py`:
credential handling (login / registration), the student-record document
store (a Firestore collection is modelled as an association list of
documents, a document as an association list of fields), the profile
update form, the chat feed, and the numeric helpers `calculate_gpa` and
`parse_attendance`.  Machine floats only ever hold integral percentages
and grade points here, so they are modelled as `ℚ`.
-/

namespace ScholarSync

/-! ## Association lists

Firestore documents and collections are schemaless key/value maps; both
are modelled as association lists keyed by `String`.  `alookup` is a
document-field / collection-document read, `aset` an upsert. -/

def alookup {α : Type} : List (String × α) → String → Option α
  | [], _ => none
  | (k', v) :: d, k => if k' = k then some v else alookup d k

def aset {α : Type} : List (String × α) → String → α → List (String × α)
  | [], k, v => [(k, v)]
  | (k', v') :: d, k, v => if k' = k then (k, v) :: d else (k', v') :: aset d k v

theorem alookup_aset_self {α : Type} (d : List (String × α)) (k : String) (v : α) :
    alookup (aset d k v) k = some v := by
  induction d with
  | nil => simp [aset, alookup]
  | cons hd tl ih =>
    obtain ⟨k', v'⟩ := hd
    by_cases h : k' = k
    · simp [aset, alookup, h]
    · simp [aset, alookup, h, ih]

theorem alookup_aset_ne {α : Type} (d : List (String × α)) (k k' : String) (v : α)
    (h : k ≠ k') : alookup (aset d k v) k' = alookup d k' := by
  induction d with
  | nil => simp [aset, alookup, h]
  | cons hd tl ih =>
    obtain ⟨k₀, v₀⟩ := hd
    by_cases h₀ : k₀ = k
    · subst h₀
      simp [aset, alookup, h]
    · simp only [aset, if_neg h₀, alookup]
      by_cases h₁ : k₀ = k'
      · simp [h₁]
      · simp [h₁, ih]

/-! ## Python string/number primitives

Models of the Python builtins the source leans on.  Strings are worked
on as `List Char`; Python's `str.strip` removes surrounding whitespace,
`str.split(sep)` never drops empty parts. -/

/-- Python `str.strip()` on a character list (ASCII whitespace). -/
def pyStripL (cs : List Char) : List Char :=
  ((cs.dropWhile Char.isWhitespace).reverse.dropWhile Char.isWhitespace).reverse

/-- Python `str.strip()`. -/
def pyStrip (s : String) : String :=
  String.mk (pyStripL s.toList)

/-- Python `str.split(sep)` for a one-character separator:
`"".split(c) = [""]`, and empty parts are kept. -/
def splitOnChar (sep : Char) : List Char → List (List Char)
  | [] => [[]]
  | c :: cs =>
    match splitOnChar sep cs with
    | [] => if c = sep then [[], []] else [[c]]
    | h :: t => if c = sep then [] :: h :: t else (c :: h) :: t

/-- Value of a list of decimal digit characters. -/
def digitsToNat (cs : List Char) : Nat :=
  cs.foldl (fun a c => 10 * a + (c.toNat - 48)) 0

/-- Model of Python `int(str)`: surrounding whitespace ignored, optional
sign, then a nonempty run of decimal digits (digit-group underscores are
not modelled; none of the verified inputs use them). -/
def pyInt? (s : String) : Option Int :=
  match pyStripL s.toList with
  | '+' :: cs => if cs ≠ [] && cs.all Char.isDigit then some (digitsToNat cs) else none
  | '-' :: cs => if cs ≠ [] && cs.all Char.isDigit then some (-(digitsToNat cs : Int)) else none
  | cs => if cs ≠ [] && cs.all Char.isDigit then some (digitsToNat cs) else none

/-- Decimal-literal core of Python `float(str)`: digits with an optional
fractional part after a single dot. -/
def pyFloatCore? (cs : List Char) : Option ℚ :=
  let ip := cs.takeWhile Char.isDigit
  let rest := cs.drop ip.length
  match rest with
  | [] => if ip.isEmpty then none else some (digitsToNat ip : ℚ)
  | '.' :: fp =>
    if fp.all Char.isDigit && !(ip.isEmpty && fp.isEmpty) then
      some ((digitsToNat ip : ℚ) + (digitsToNat fp : ℚ) / (10 : ℚ) ^ fp.length)
    else none
  | _ => none

/-- Model of Python `float(str)` restricted to signed decimal literals
(exponents, `inf`/`nan` and surrounding whitespace are outside the
attendance format `"<digits>%"` and are not modelled). -/
def pyFloat? (s : String) : Option ℚ :=
  match s.toList with
  | '+' :: cs => pyFloatCore? cs
  | '-' :: cs => (pyFloatCore? cs).map (fun q => -q)
  | cs => pyFloatCore? cs

/-! ## `calculate_gpa` (src lines 92–110) -/

/-- Grade points for one mark, the `if/elif` ladder of `calculate_gpa`. -/
def gradePoint (mark : ℚ) : ℚ :=
  if mark ≥ 90 then 4
  else if mark ≥ 80 then 3
  else if mark ≥ 70 then 2
  else if mark ≥ 60 then 1
  else 0

/-- `calculate_gpa(marks)`: `0.0` on an empty dict, otherwise the mean
of the per-mark grade points.  The dict is an association list. -/
def calculate_gpa (marks : List (String × ℚ)) : ℚ :=
  if marks.isEmpty then 0
  else
    let grade_points := (marks.map Prod.snd).map gradePoint
    if grade_points.isEmpty then 0 else grade_points.sum / (grade_points.length : ℚ)

theorem gradePoint_nonneg (m : ℚ) : 0 ≤ gradePoint m := by
  unfold gradePoint
  split_ifs <;> norm_num

theorem gradePoint_le_four (m : ℚ) : gradePoint m ≤ 4 := by
  unfold gradePoint
  split_ifs <;> norm_num

theorem sum_le_four_mul_length (l : List ℚ) (h : ∀ x ∈ l, x ≤ 4) :
    l.sum ≤ 4 * (l.length : ℚ) := by
  induction l with
  | nil => simp
  | cons a t ih =>
    have ha := h a (List.mem_cons_self a t)
    have ht := ih (fun x hx => h x (List.mem_cons_of_mem a hx))
    simp only [List.sum_cons, List.length_cons]
    push_cast
    linarith

theorem sum_nonneg_of_mem (l : List ℚ) (h : ∀ x ∈ l, 0 ≤ x) : 0 ≤ l.sum := by
  induction l with
  | nil => simp
  | cons a t ih =>
    have ha := h a (List.mem_cons_self a t)
    have ht := ih (fun x hx => h x (List.mem_cons_of_mem a hx))
    simp only [List.sum_cons]
    linarith

/-! ## `parse_attendance` (src lines 123–128) -/

/-- `attendance_str.replace('%', '')` (src line 126): every `'%'` is
removed. -/
def replacePercent (s : String) : String :=
  String.mk (s.toList.filter (fun c => c ≠ '%'))

/-- `parse_attendance(attendance_str)`: `float` of the string with `'%'`
removed; the `except` arm turns any conversion failure into `0.0`. -/
def parse_attendance (attendance_str : String) : ℚ :=
  (pyFloat? (replacePercent attendance_str)).getD 0

/-- The attendance storage format `f"{attendance_input}%"` written by the
profile form (src line 358); the slider value is a whole percentage. -/
def attendanceString (n : Nat) : String := toString n ++ "%"

/-- C8: `calculate_gpa` stays inside `[0, 4]`, returns `0` on the empty
marks dict, and otherwise is the arithmetic mean of the per-mark grade
points, which are `4/3/2/1/0` on the intervals
`[90,∞)/[80,90)/[70,80)/[60,70)/(-∞,60)`. -/
theorem calculate_gpa_spec (marks : List (String × ℚ)) :
    0 ≤ calculate_gpa marks ∧ calculate_gpa marks ≤ 4 ∧
    (marks = [] → calculate_gpa marks = 0) ∧
    (marks ≠ [] →
      calculate_gpa marks =
        ((marks.map Prod.snd).map gradePoint).sum / (marks.length : ℚ)) ∧
    (∀ m : ℚ, (90 ≤ m → gradePoint m = 4) ∧
      (80 ≤ m ∧ m < 90 → gradePoint m = 3) ∧
      (70 ≤ m ∧ m < 80 → gradePoint m = 2) ∧
      (60 ≤ m ∧ m < 70 → gradePoint m = 1) ∧
      (m < 60 → gradePoint m = 0)) := by
  have hmean : marks ≠ [] →
      calculate_gpa marks =
        ((marks.map Prod.snd).map gradePoint).sum / (marks.length : ℚ) := by
    intro h
    have hne : ¬ marks.isEmpty := by simpa [List.isEmpty_iff] using h
    have hgp : ¬ ((marks.map Prod.snd).map gradePoint).isEmpty := by
      simpa [List.isEmpty_iff] using h
    unfold calculate_gpa
    rw [if_neg hne]
    dsimp only
    rw [if_neg hgp]
    simp [List.length_map]
  have hbounds : 0 ≤ calculate_gpa marks ∧ calculate_gpa marks ≤ 4 := by
    rcases eq_or_ne marks [] with h | h
    · subst h
      refine ⟨le_of_eq ?_, ?_⟩ <;> simp [calculate_gpa]
    · rw [hmean h]
      have hpos : (0 : ℚ) < (marks.length : ℚ) := by
        exact_mod_cast List.length_pos.mpr h
      have h0 : 0 ≤ ((marks.map Prod.snd).map gradePoint).sum :=
        sum_nonneg_of_mem _ (by
          intro x hx
          simp only [List.mem_map] at hx
          obtain ⟨y, _, rfl⟩ := hx
          exact gradePoint_nonneg y)
      have h4 : ((marks.map Prod.snd).map gradePoint).sum ≤
          4 * (((marks.map Prod.snd).map gradePoint).length : ℚ) :=
        sum_le_four_mul_length _ (by
          intro x hx
          simp only [List.mem_map] at hx
          obtain ⟨y, _, rfl⟩ := hx
          exact gradePoint_le_four y)
      have hlen : ((((marks.map Prod.snd).map gradePoint).length : ℚ)) =
          (marks.length : ℚ) := by simp
      constructor
      · exact div_nonneg h0 (le_of_lt hpos)
      · rw [div_le_iff₀ hpos]
        rw [hlen] at h4
        linarith
  refine ⟨hbounds.1, hbounds.2, ?_, hmean, ?_⟩
  · intro h
    simp [calculate_gpa, h]
  · intro m
    refine ⟨?_, ?_, ?_, ?_, ?_⟩ <;> intro hm <;> unfold gradePoint <;>
      split_ifs <;> first | rfl | (exfalso; push_neg at *; linarith [hm.1, hm.2]) |
        (exfalso; linarith)

/-- Concrete instance of `calculate_gpa_spec`: the non-empty marks dict
`{Math: 85, Science: 92}` yields the mean of its grade points, the empty
dict yields `0`, and a mark of `95` is worth `4` points. -/
theorem calculate_gpa_spec_witness :
    ([(("Math" : String), (85 : ℚ)), ("Science", 92)] ≠ []) ∧
    calculate_gpa [("Math", 85), ("Science", 92)] =
      (((([(("Math" : String), (85 : ℚ)), ("Science", 92)]).map Prod.snd).map
        gradePoint).sum) / 2 ∧
    calculate_gpa [] = 0 ∧ gradePoint 95 = 4 :=
  ⟨by decide,
   (calculate_gpa_spec [("Math", 85), ("Science", 92)]).2.2.2.1 (by decide),
   (calculate_gpa_spec []).2.2.1 rfl,
   ((calculate_gpa_spec []).2.2.2.2 95).1 (by norm_num)⟩

/-- C9: `parse_attendance` falls back to `0` whenever the float
conversion fails, and it inverts the profile form's storage format: for
every slider value `0 ≤ n ≤ 100`, parsing the stored string `"{n}%"`
returns `n`. -/
theorem parse_attendance_spec :
    (∀ s, pyFloat? (replacePercent s) = none → parse_attendance s = 0) ∧
    (∀ n : Nat, n ≤ 100 → parse_attendance (attendanceString n) = (n : ℚ)) := by
  constructor
  · intro s h
    simp [parse_attendance, h]
  · have hb : ∀ n : Nat, n < 101 → parse_attendance (attendanceString n) = (n : ℚ) := by
      decide
    intro n hn
    exact hb n (by omega)

/-- Concrete instance of `parse_attendance_spec`: `"N/A"` does not parse
and yields `0`, and the stored string for an 85% slider reads back
as `85`. -/
theorem parse_attendance_spec_witness :
    pyFloat? (replacePercent "N/A") = none ∧ parse_attendance "N/A" = 0 ∧
    (85 ≤ 100) ∧ parse_attendance (attendanceString 85) = 85 :=
  ⟨by decide, parse_attendance_spec.1 "N/A" (by decide), by decide,
   parse_attendance_spec.2 85 (by decide)⟩

/-! ## Chat (src lines 532–596)

A chat document carries the fields written at src lines 590–595; the
collection is append-only, and the server assigns the timestamp
(`firestore.SERVER_TIMESTAMP`), modelled as a `Nat` that grows with
insertion order. -/

structure ChatMsg where
  user : String
  user_name : String
  message : String
  timestamp : Nat
deriving DecidableEq

/-- The chat send handler (src lines 589–596): with the send button
pressed, a message whose `strip()` is empty adds nothing; otherwise one
document with the sender, the stripped text and the server timestamp is
appended. -/
def chat_form (chat : List ChatMsg) (current_user user_name message : String)
    (serverTs : Nat) : List ChatMsg :=
  if pyStrip message ≠ "" then
    chat ++ [{ user := current_user, user_name := user_name,
               message := pyStrip message, timestamp := serverTs }]
  else chat

/-- Descending insertion by timestamp (the message with the largest
timestamp first), the order `order_by("timestamp", DESCENDING)` returns. -/
def orderedInsertDesc (m : ChatMsg) : List ChatMsg → List ChatMsg
  | [] => [m]
  | x :: xs => if m.timestamp ≤ x.timestamp then x :: orderedInsertDesc m xs
               else m :: x :: xs

def orderByTimestampDesc : List ChatMsg → List ChatMsg
  | [] => []
  | m :: ms => orderedInsertDesc m (orderByTimestampDesc ms)

/-- The fixed fetch cap of this version (`.limit(50)`, src line 540). -/
def chatLimit : Nat := 50

/-- The chat read path (src lines 540–548): fetch the documents ordered
by timestamp descending, keep the first `n` (`.limit(n)`), then iterate
over `reversed(chat_list)` for chronological display. -/
def chatDisplay (msgs : List ChatMsg) (n : Nat) : List ChatMsg :=
  ((orderByTimestampDesc msgs).take n).reverse

theorem orderedInsertDesc_min (m : ChatMsg) (r : List ChatMsg)
    (h : ∀ x ∈ r, m.timestamp ≤ x.timestamp) :
    orderedInsertDesc m r = r ++ [m] := by
  induction r with
  | nil => rfl
  | cons x xs ih =>
    have hx := h x (List.mem_cons_self x xs)
    simp only [orderedInsertDesc, if_pos hx, List.cons_append]
    rw [ih (fun y hy => h y (List.mem_cons_of_mem x hy))]

theorem orderByTimestampDesc_of_ascending (l : List ChatMsg)
    (h : List.Pairwise (fun a b => a.timestamp < b.timestamp) l) :
    orderByTimestampDesc l = l.reverse := by
  induction l with
  | nil => rfl
  | cons m ms ih =>
    rw [List.pairwise_cons] at h
    simp only [orderByTimestampDesc]
    rw [ih h.2, orderedInsertDesc_min m ms.reverse
      (fun x hx => le_of_lt (h.1 x (List.mem_reverse.mp hx)))]
    simp

/-- C6: when the stored messages carry strictly increasing (insertion
order) server timestamps, the displayed list is exactly the
chronologically last `min n total` messages in ascending order. -/
theorem chat_read_spec (msgs : List ChatMsg) (n : Nat)
    (h : List.Pairwise (fun a b => a.timestamp < b.timestamp) msgs) :
    chatDisplay msgs n = msgs.drop (msgs.length - n) ∧
    (chatDisplay msgs n).length = min n msgs.length := by
  have hd : chatDisplay msgs n = msgs.drop (msgs.length - n) := by
    unfold chatDisplay
    rw [orderByTimestampDesc_of_ascending msgs h,
        ← List.rtake_eq_reverse_take_reverse]
    rfl
  refine ⟨hd, ?_⟩
  rw [hd, List.length_drop]
  omega

/-- Five chat documents inserted in order A, B, C, D, E. -/
def chatFive : List ChatMsg :=
  [⟨"u1", "Ann", "A", 1⟩, ⟨"u2", "Bob", "B", 2⟩, ⟨"u1", "Ann", "C", 3⟩,
   ⟨"u3", "Cal", "D", 4⟩, ⟨"u2", "Bob", "E", 5⟩]

/-- Concrete instance of `chat_read_spec`: displaying the most recent 3
of the 5 messages A…E yields exactly C, D, E in chronological order. -/
theorem chat_read_spec_witness :
    List.Pairwise (fun a b => a.timestamp < b.timestamp) chatFive ∧
    chatDisplay chatFive 3 =
      [⟨"u1", "Ann", "C", 3⟩, ⟨"u3", "Cal", "D", 4⟩, ⟨"u2", "Bob", "E", 5⟩] := by
  have h : List.Pairwise (fun a b => a.timestamp < b.timestamp) chatFive := by
    decide
  exact ⟨h, ((chat_read_spec chatFive 3 h).1).trans (by decide)⟩

/-- C5: a message that strips to empty or whitespace creates no chat
document; a message with non-empty stripped text appends exactly one
document carrying the sender identity, the stripped text and the
server-assigned timestamp. -/
theorem chat_send_spec (chat : List ChatMsg) (cu un msg : String) (ts : Nat) :
    (pyStrip msg = "" → chat_form chat cu un msg ts = chat) ∧
    (pyStrip msg ≠ "" →
      chat_form chat cu un msg ts =
        chat ++ [{ user := cu, user_name := un, message := pyStrip msg,
                   timestamp := ts }] ∧
      (chat_form chat cu un msg ts).length = chat.length + 1) := by
  constructor
  · intro h
    simp [chat_form, h]
  · intro h
    refine ⟨by simp [chat_form, h], by simp [chat_form, h]⟩

/-- Concrete instance of `chat_send_spec`: a whitespace-only message is
dropped; `" hi "` is stored once, stripped, with sender and timestamp. -/
theorem chat_send_spec_witness :
    pyStrip "   " = "" ∧ chat_form [] "r1" "Asha" "   " 7 = [] ∧
    pyStrip " hi " ≠ "" ∧
    chat_form [] "r1" "Asha" " hi " 7 = [⟨"r1", "Asha", "hi", 7⟩] :=
  ⟨by decide, (chat_send_spec [] "r1" "Asha" "   " 7).1 (by decide),
   by decide,
   ((chat_send_spec [] "r1" "Asha" " hi " 7).2 (by decide)).1.trans (by decide)⟩

/-! ## Documents and the students collection

A Firestore document is a schemaless map from field names to values; the
value types that `student_tracker.py` stores in the `students`
collection are enumerated by `Value`.  Timestamps (`datetime.now()`,
`SERVER_TIMESTAMP`) are abstract instants, modelled as `Nat`. -/

inductive Value where
  | str (s : String)
  | int (n : Int)
  | strList (l : List String)
  | marks (m : List (String × Int))
  | bool (b : Bool)
  | time (t : Nat)
deriving DecidableEq

/-- A Firestore document: field name ↦ value. -/
def Doc : Type := List (String × Value)

/-- The `students` collection: document key (roll number) ↦ document. -/
def Store : Type := List (String × Doc)

instance : DecidableEq Doc := by unfold Doc; infer_instance
instance : DecidableEq Store := by unfold Store; infer_instance

/-- `doc.get(field)` / field read. -/
def getField (d : Doc) (k : String) : Option Value := alookup d k

/-- Write one field (insert or overwrite). -/
def setField (d : Doc) (k : String) (v : Value) : Doc := aset d k v

/-- `students_ref.document(key).get()` — `none` when `doc.exists` is
false. -/
def docGet (store : Store) (key : String) : Option Doc := alookup store key

/-- `students_ref.document(key).set(data)` — create or replace the whole
document. -/
def docSet (store : Store) (key : String) (d : Doc) : Store := aset store key d

/-- `document(key).update(payload)` merges the payload fields into the
existing document, overwriting only the named top-level fields. -/
def updateDoc (d : Doc) (payload : Doc) : Doc :=
  payload.foldl (fun acc kv => setField acc kv.1 kv.2) d

/-- `students_ref.document(key).update(payload)` on the collection; the
source only calls it for the logged-in user's existing document. -/
def docUpdate (store : Store) (key : String) (payload : Doc) : Store :=
  match alookup store key with
  | some d => aset store key (updateDoc d payload)
  | none => store

theorem getField_updateDoc_not_mem (d payload : Doc) (k : String)
    (h : k ∉ payload.map Prod.fst) :
    getField (updateDoc d payload) k = getField d k := by
  induction payload generalizing d with
  | nil => rfl
  | cons kv rest ih =>
    simp only [List.map_cons, List.mem_cons] at h
    push_neg at h
    simp only [updateDoc, List.foldl_cons]
    rw [show (List.foldl (fun acc kv => setField acc kv.1 kv.2)
          (setField d kv.1 kv.2) rest) = updateDoc (setField d kv.1 kv.2) rest from rfl,
       ih (setField d kv.1 kv.2) h.2]
    exact alookup_aset_ne d kv.1 k kv.2 (Ne.symm h.1)

/-! ## Session state (src lines 130–136)

`st.session_state` holds the login flag and the authenticated roll
number (`current_user`). -/

structure SessionState where
  logged_in : Bool
  current_user : Option String
deriving DecidableEq

/-- The fresh session created at src lines 131–134. -/
def initialSession : SessionState := { logged_in := false, current_user := none }

/-! ## `validate_email` (src lines 87–90)

A functional model of the anchored regex
`^[a-zA-Z0-9._%+-]+@[a-zA-Z0-9.-]+\.[a-zA-Z]\x7b2,\x7d$`: since `'@'`
belongs to neither character class, a match has exactly one `'@'`; the
final `[a-zA-Z]\x7b2,\x7d$` run can only follow the last dot of the
domain part.  (Python's `$` also accepting a position before one
trailing newline is not modelled.) -/

def isLocalChar (c : Char) : Bool :=
  c.isAlphanum || c = '.' || c = '_' || c = '%' || c = '+' || c = '-'

def isDomainChar (c : Char) : Bool :=
  c.isAlphanum || c = '.' || c = '-'

/-- Does a character list match `[a-zA-Z0-9.-]+\.[a-zA-Z]\x7b2,\x7d`
completely? -/
def domainMatches (cs : List Char) : Bool :=
  let revTld := cs.reverse.takeWhile (fun c => c ≠ '.')
  if revTld.length = cs.length then false
  else
    let tld := revTld.reverse
    let body := cs.take (cs.length - tld.length - 1)
    decide (2 ≤ tld.length) && tld.all Char.isAlpha &&
      decide (body ≠ []) && body.all isDomainChar

def validate_email (email : String) : Bool :=
  match splitOnChar '@' email.toList with
  | [lpart, domain] =>
    decide (lpart ≠ []) && lpart.all isLocalChar && domainMatches domain
  | _ => false

/-! ## Authentication forms (src lines 146–232)

`hash_password` is SHA-256 (src lines 83–85); the digest function itself
is external to the control flow verified here, so the development is
parameterized over it. -/

inductive LoginResult where
  | noAction       -- the `login_btn and roll_no and password` guard failed
  | notFound       -- "Student not found"
  | invalidCredentials
  | success
deriving DecidableEq

/-- The login handler (src lines 160–173): look the document up by roll
number; absent → "Student not found"; present with a stored `password`
field different from the hash of the input → "Invalid credentials";
otherwise set `logged_in` and `current_user`. -/
def login_form (hash_password : String → String) (store : Store)
    (roll_no password : String) (sess : SessionState) :
    LoginResult × SessionState :=
  if roll_no = "" ∨ password = "" then (.noAction, sess)
  else
    match docGet store roll_no with
    | none => (.notFound, sess)
    | some student_data =>
      if getField student_data "password" = some (.str (hash_password password)) then
        (.success, { logged_in := true, current_user := some roll_no })
      else
        (.invalidCredentials, sess)

inductive RegisterResult where
  | missingFields     -- "Please fill all required fields"
  | passwordMismatch  -- "Passwords don't match"
  | invalidEmail      -- "Invalid email format"
  | alreadyExists     -- "Student with this roll number already exists"
  | registered        -- "Registration successful! Please login."
deriving DecidableEq

structure RegisterInput where
  roll_no : String
  password : String
  confirm_password : String
  name : String
  email : String
  phone : String
  course : String
  semester : Int
  year : Int
deriving DecidableEq

/-- `all([roll_no, password, name, email, course])` (src line 194):
Python string truthiness is non-emptiness. -/
def requiredFilled (inp : RegisterInput) : Bool :=
  inp.roll_no ≠ "" && inp.password ≠ "" && inp.name ≠ "" &&
    inp.email ≠ "" && inp.course ≠ ""

/-- The document written at registration (src lines 207–221). -/
def registrationDoc (hash_password : String → String) (inp : RegisterInput)
    (now : Nat) : Doc :=
  [("name", .str inp.name), ("email", .str inp.email), ("phone", .str inp.phone),
   ("course", .str inp.course), ("semester", .int inp.semester),
   ("year", .int inp.year), ("password", .str (hash_password inp.password)),
   ("registration_date", .time now), ("subjects", .strList []),
   ("marks", .marks []), ("attendance", .str "0%"),
   ("academic_progress", .str "New Student"), ("profile_complete", .bool false)]

/-- The registration handler (src lines 193–223).  Checks run in source
order: required fields, password confirmation, email syntax, duplicate
roll number; only then is the new document written.  The handler never
touches the session — the user must log in separately. -/
def register_form (hash_password : String → String) (store : Store)
    (sess : SessionState) (inp : RegisterInput) (now : Nat) :
    RegisterResult × Store × SessionState :=
  if ¬ requiredFilled inp then (.missingFields, store, sess)
  else if inp.password ≠ inp.confirm_password then (.passwordMismatch, store, sess)
  else if ¬ validate_email inp.email then (.invalidEmail, store, sess)
  else
    match docGet store inp.roll_no with
    | some _ => (.alreadyExists, store, sess)
    | none =>
      (.registered, docSet store inp.roll_no (registrationDoc hash_password inp now),
       sess)

/-- C1: with both login fields filled, a missing credential record fails
with "not found" and leaves the session untouched; a record whose stored
password representation differs from the hash of the supplied password
fails with "invalid credentials" and leaves the session untouched (so an
unset authenticated identifier stays unset); only a matching hash
establishes a session storing the identifier. -/
theorem login_form_spec (hash_password : String → String) (store : Store)
    (roll_no password : String) (sess : SessionState)
    (hr : roll_no ≠ "") (hp : password ≠ "") :
    (docGet store roll_no = none →
      login_form hash_password store roll_no password sess = (.notFound, sess)) ∧
    (∀ d, docGet store roll_no = some d →
      getField d "password" ≠ some (.str (hash_password password)) →
      login_form hash_password store roll_no password sess =
        (.invalidCredentials, sess)) ∧
    (∀ d, docGet store roll_no = some d →
      getField d "password" = some (.str (hash_password password)) →
      login_form hash_password store roll_no password sess =
        (.success, { logged_in := true, current_user := some roll_no })) := by
  have hg : ¬ (roll_no = "" ∨ password = "") := not_or.mpr ⟨hr, hp⟩
  refine ⟨?_, ?_, ?_⟩
  · intro h
    simp [login_form, hg, h]
  · intro d hd hne
    simp [login_form, hg, hd, hne]
  · intro d hd he
    simp [login_form, hg, hd, he]

/-- A stand-in digest used only to instantiate witnesses; the theorems
are parameterized over the real SHA-256 `hash_password`. -/
def hashDemo (s : String) : String := "#" ++ s

def demoStudent : Doc :=
  [("password", .str (hashDemo "secret")), ("name", .str "Asha")]

def demoStore : Store := [("r1", demoStudent)]

/-- Concrete instance of `login_form_spec`: a wrong password against the
stored hash is rejected without a session; the right one logs in. -/
theorem login_form_spec_witness :
    ("r1" : String) ≠ "" ∧ ("wrong" : String) ≠ "" ∧
    docGet demoStore "r1" = some demoStudent ∧
    getField demoStudent "password" ≠ some (.str (hashDemo "wrong")) ∧
    login_form hashDemo demoStore "r1" "wrong" initialSession =
      (.invalidCredentials, initialSession) ∧
    login_form hashDemo demoStore "r1" "secret" initialSession =
      (.success, { logged_in := true, current_user := some "r1" }) :=
  ⟨by decide, by decide, by decide, by decide,
   (login_form_spec hashDemo demoStore "r1" "wrong" initialSession
     (by decide) (by decide)).2.1 demoStudent (by decide) (by decide),
   (login_form_spec hashDemo demoStore "r1" "secret" initialSession
     (by decide) (by decide)).2.2 demoStudent (by decide) (by decide)⟩

/-- C2: for a registration request that passes field validation, a roll
number that already has a record fails with "already exists" and leaves
the store (hence the existing record) and session unchanged; a fresh
roll number writes exactly the registration document, whose `password`
field holds the hashed password, and the session is untouched (no login
is issued). -/
theorem register_form_spec (hash_password : String → String) (store : Store)
    (sess : SessionState) (inp : RegisterInput) (now : Nat)
    (hreq : requiredFilled inp = true)
    (hcp : inp.password = inp.confirm_password)
    (hem : validate_email inp.email = true) :
    (∀ d, docGet store inp.roll_no = some d →
      register_form hash_password store sess inp now =
        (.alreadyExists, store, sess)) ∧
    (docGet store inp.roll_no = none →
      register_form hash_password store sess inp now =
        (.registered,
         docSet store inp.roll_no (registrationDoc hash_password inp now), sess) ∧
      docGet (register_form hash_password store sess inp now).2.1 inp.roll_no =
        some (registrationDoc hash_password inp now) ∧
      getField (registrationDoc hash_password inp now) "password" =
        some (.str (hash_password inp.password))) := by
  constructor
  · intro d hd
    simp [register_form, hreq, hcp, hem, hd]
  · intro hd
    refine ⟨by simp [register_form, hreq, hcp, hem, hd], ?_, ?_⟩
    · simp only [register_form, hreq, hcp, hem, hd]
      simp [docSet, docGet, alookup_aset_self]
    · simp [registrationDoc, getField, alookup]

def demoRegInput : RegisterInput :=
  { roll_no := "r9", password := "pw", confirm_password := "pw", name := "Ira",
    email := "ira@uni.edu", phone := "123", course := "Physics",
    semester := 2, year := 2025 }

def demoStore9 : Store := docSet [] "r9" (registrationDoc hashDemo demoRegInput 5)

/-- Concrete instance of `register_form_spec`: registering `r9` in an
empty store writes the hashed-password document without logging in, and
registering the same roll number again fails with the duplicate error
leaving everything unchanged. -/
theorem register_form_spec_witness :
    requiredFilled demoRegInput = true ∧
    demoRegInput.password = demoRegInput.confirm_password ∧
    validate_email demoRegInput.email = true ∧
    docGet ([] : Store) demoRegInput.roll_no = none ∧
    register_form hashDemo [] initialSession demoRegInput 5 =
      (.registered, demoStore9, initialSession) ∧
    docGet demoStore9 "r9" = some (registrationDoc hashDemo demoRegInput 5) ∧
    register_form hashDemo demoStore9 initialSession demoRegInput 6 =
      (.alreadyExists, demoStore9, initialSession) :=
  ⟨by decide, rfl, by decide, rfl,
   ((register_form_spec hashDemo [] initialSession demoRegInput 5
      (by decide) rfl (by decide)).2 rfl).1,
   by decide,
   (register_form_spec hashDemo demoStore9 initialSession demoRegInput 6
      (by decide) rfl (by decide)).1
     (registrationDoc hashDemo demoRegInput 5) (by decide)⟩

/-- C7: a registration attempt with a missing required field, a
mismatched password confirmation, or an invalid email reports the
corresponding inline validation error and aborts: the credential store
and the session are unchanged, so no write is attempted. -/
theorem register_form_validation (hash_password : String → String)
    (store : Store) (sess : SessionState) (inp : RegisterInput) (now : Nat)
    (h : requiredFilled inp = false ∨ inp.password ≠ inp.confirm_password ∨
         validate_email inp.email = false) :
    ((register_form hash_password store sess inp now).1 = .missingFields ∨
     (register_form hash_password store sess inp now).1 = .passwordMismatch ∨
     (register_form hash_password store sess inp now).1 = .invalidEmail) ∧
    (register_form hash_password store sess inp now).2.1 = store ∧
    (register_form hash_password store sess inp now).2.2 = sess := by
  by_cases h1 : requiredFilled inp
  · by_cases h2 : inp.password = inp.confirm_password
    · by_cases h3 : validate_email inp.email
      · exfalso
        rcases h with h | h | h
        · simp [h] at h1
        · exact h h2
        · simp [h] at h3
      · simp [register_form, h1, h2, h3]
    · simp [register_form, h1, h2]
  · simp [register_form, h1]

def badEmailInput : RegisterInput :=
  { roll_no := "r2", password := "pw", confirm_password := "pw", name := "Bo",
    email := "not-an-email", phone := "", course := "Math",
    semester := 1, year := 2024 }

/-- Concrete instance of `register_form_validation`: an email without an
`@` aborts registration and writes nothing. -/
theorem register_form_validation_witness :
    validate_email "not-an-email" = false ∧
    (((register_form hashDemo [] initialSession badEmailInput 3).1 = .missingFields ∨
      (register_form hashDemo [] initialSession badEmailInput 3).1 = .passwordMismatch ∨
      (register_form hashDemo [] initialSession badEmailInput 3).1 = .invalidEmail) ∧
     (register_form hashDemo [] initialSession badEmailInput 3).2.1 = [] ∧
     (register_form hashDemo [] initialSession badEmailInput 3).2.2 = initialSession) :=
  ⟨by decide,
   register_form_validation hashDemo [] initialSession badEmailInput 3
     (Or.inr (Or.inr (by decide)))⟩

/-! ## Profile form (src lines 307–366)

The form widgets are pre-filled from the stored document
(`profileDefaults`); on submit the collected values become the
`updated_data` payload merged into the document with `.update(...)`.
Note the course selectbox default (src line 321) is
`index=0 if user_data.get('course') == 'Computer Science' else 0`, whose
two arms are both `0`, and the academic-progress selectbox (src line
347) is fixed at `index=0`. -/

def courses : List String :=
  ["Computer Science", "Electronics", "Mechanical", "Civil", "Chemical",
   "Biotechnology", "Mathematics", "Physics"]

def progressOptions : List String :=
  ["Excellent", "Good", "Average", "Needs Improvement"]

def semesterOptions : List Int := [1, 2, 3, 4, 5, 6, 7, 8]

/-- The widget values a profile-form submission carries. -/
structure ProfileInput where
  name : String
  email : String
  phone : String
  course : String
  semester : Int
  subjects_input : String
  marks : List (String × Int)
  attendance : Nat
  academic_progress : String
deriving DecidableEq

def getStrD (d : Doc) (k dflt : String) : String :=
  match getField d k with
  | some (.str s) => s
  | _ => dflt

def getIntD (d : Doc) (k : String) (dflt : Int) : Int :=
  match getField d k with
  | some (.int n) => n
  | _ => dflt

def getStrList (d : Doc) (k : String) : List String :=
  match getField d k with
  | some (.strList l) => l
  | _ => []

def getMarks (d : Doc) : List (String × Int) :=
  match getField d "marks" with
  | some (.marks m) => m
  | _ => []

/-- `[s.strip() for s in subjects_input.split('\n') if s.strip()]`
(src line 332). -/
def subjectsList (subjects_input : String) : List String :=
  ((splitOnChar '\n' subjects_input.toList).map
    (fun s => String.mk (pyStripL s))).filter (fun s => s ≠ "")

/-- `'\n'.join(...)` for the subjects text-area default (src line 327). -/
def joinNewline (l : List String) : String := String.intercalate "\n" l

/-- Python `int(x)` on a float: truncation toward zero. -/
def pyIntOfFloat (q : ℚ) : Int := Int.tdiv q.num (q.den : Int)

/-- The defaults the profile form renders from the stored document
(src lines 315–347): text fields echo the stored values, the course and
academic-progress selectboxes sit at index 0 (see the section comment),
the semester selectbox at the stored semester, each subject's marks
field at the stored mark (0 when absent), and the attendance slider at
`int(parse_attendance(stored))`. -/
def profileDefaults (user_data : Doc) : ProfileInput :=
  let subjects_input := joinNewline (getStrList user_data "subjects")
  let marks_data := getMarks user_data
  { name := getStrD user_data "name" "",
    email := getStrD user_data "email" "",
    phone := getStrD user_data "phone" "",
    course := courses.getD
      (if getStrD user_data "course" "" = "Computer Science" then 0 else 0) "",
    semester := semesterOptions.getD ((getIntD user_data "semester" 1) - 1).toNat 1,
    subjects_input := subjects_input,
    marks := (subjectsList subjects_input).map
      (fun s => (s, (alookup marks_data s).getD 0)),
    attendance :=
      (pyIntOfFloat (parse_attendance (getStrD user_data "attendance" "0%"))).toNat,
    academic_progress := progressOptions.getD 0 "" }

/-- The `updated_data` payload built on submit (src lines 350–362). -/
def updated_data (inp : ProfileInput) (now : Nat) : Doc :=
  [("name", .str inp.name), ("email", .str inp.email), ("phone", .str inp.phone),
   ("course", .str inp.course), ("semester", .int inp.semester),
   ("subjects", .strList (subjectsList inp.subjects_input)),
   ("marks", .marks inp.marks),
   ("attendance", .str (attendanceString inp.attendance)),
   ("academic_progress", .str inp.academic_progress),
   ("profile_complete", .bool true), ("last_updated", .time now)]

/-- The profile-form submit handler (src line 364):
`students_ref.document(current_user).update(updated_data)`. -/
def profile_form (store : Store) (current_user : String) (inp : ProfileInput)
    (now : Nat) : Store :=
  docUpdate store current_user (updated_data inp now)

/-- C10: the profile update payload has no `password`,
`registration_date` or `year` field, and `.update` merges field-wise, so
every profile update leaves those three fields of the document exactly
as written at registration. -/
theorem profile_update_preserves_credentials (d : Doc) (inp : ProfileInput)
    (now : Nat) :
    ("password" ∉ (updated_data inp now).map Prod.fst ∧
     "registration_date" ∉ (updated_data inp now).map Prod.fst ∧
     "year" ∉ (updated_data inp now).map Prod.fst) ∧
    getField (updateDoc d (updated_data inp now)) "password" =
      getField d "password" ∧
    getField (updateDoc d (updated_data inp now)) "registration_date" =
      getField d "registration_date" ∧
    getField (updateDoc d (updated_data inp now)) "year" = getField d "year" := by
  have hkeys : (updated_data inp now).map Prod.fst =
      ["name", "email", "phone", "course", "semester", "subjects", "marks",
       "attendance", "academic_progress", "profile_complete", "last_updated"] := rfl
  have h1 : ("password" : String) ∉ (updated_data inp now).map Prod.fst := by
    rw [hkeys]; decide
  have h2 : ("registration_date" : String) ∉ (updated_data inp now).map Prod.fst := by
    rw [hkeys]; decide
  have h3 : ("year" : String) ∉ (updated_data inp now).map Prod.fst := by
    rw [hkeys]; decide
  exact ⟨⟨h1, h2, h3⟩, getField_updateDoc_not_mem d _ _ h1,
    getField_updateDoc_not_mem d _ _ h2, getField_updateDoc_not_mem d _ _ h3⟩

/-- A stored student record whose course is not "Computer Science". -/
def sampleStudent : Doc :=
  [("name", .str "Asha"), ("email", .str "asha@uni.edu"), ("phone", .str "123"),
   ("course", .str "Electronics"), ("semester", .int 3), ("year", .int 2025),
   ("password", .str "#pw"), ("registration_date", .time 1),
   ("subjects", .strList ["Math", "Science"]),
   ("marks", .marks [("Math", 85), ("Science", 92)]),
   ("attendance", .str "85%"), ("academic_progress", .str "Good"),
   ("profile_complete", .bool true)]

/-- The profile form submitted with every widget left at its rendered
default and only the attendance slider moved from 85 to 90. -/
def attendanceOnlyInput : ProfileInput :=
  { profileDefaults sampleStudent with attendance := 90 }

/-- C4 (failing input): updating only the attendance of a student whose
stored course is "Electronics" silently rewrites the course to
"Computer Science" — the selectbox default index is the constant
`0 if course == 'Computer Science' else 0` — while name and marks are
preserved and the attendance becomes `"90%"`. -/
theorem profile_update_attendance_only :
    getField sampleStudent "course" = some (.str "Electronics") ∧
    docGet (profile_form [("r1", sampleStudent)] "r1" attendanceOnlyInput 9) "r1" =
      some (updateDoc sampleStudent (updated_data attendanceOnlyInput 9)) ∧
    getField (updateDoc sampleStudent (updated_data attendanceOnlyInput 9))
      "course" = some (.str "Computer Science") ∧
    getField (updateDoc sampleStudent (updated_data attendanceOnlyInput 9))
      "name" = getField sampleStudent "name" ∧
    getField (updateDoc sampleStudent (updated_data attendanceOnlyInput 9))
      "marks" = getField sampleStudent "marks" ∧
    getField (updateDoc sampleStudent (updated_data attendanceOnlyInput 9))
      "attendance" = some (.str "90%") := by
  decide

/-! ## Marks-text parsing (modelled from the spec)

`src/student_tracker.py` collects marks through one numeric input per
subject (src lines 334–340) and has no marks text box; the marks-text
parser belongs to the repository's other form versions, which are not
under `src/`.  Spec §4.2 freezes the policy as the compatibility
contract: split the marks text on commas, split each segment on its
first colon, trim whitespace, cast the right-hand side to `int`,
silently drop segments without a colon, and on a cast failure abort the
whole operation with an error (the later versions' behavior, designated
as the contract to implement). -/

/-- Modelled from the spec: §4.2's per-segment marks parsing, absent
from `src/student_tracker.py`.  `none` is the aborting error path of a
failed int cast; a segment without a colon is skipped. -/
def parseMarkSegs : List (List Char) → Option (List (String × Int))
  | [] => some []
  | seg :: rest =>
    if ':' ∈ seg then
      let subject := seg.takeWhile (fun c => c ≠ ':')
      let score := (seg.dropWhile (fun c => c ≠ ':')).drop 1
      match pyInt? (String.mk (pyStripL score)) with
      | none => none
      | some v =>
        (parseMarkSegs rest).map (fun m => (String.mk (pyStripL subject), v) :: m)
    else parseMarkSegs rest

/-- Modelled from the spec: the whole marks-text parse — split on
commas, then `parseMarkSegs`. -/
def parse_marks (text : String) : Option (List (String × Int)) :=
  parseMarkSegs (splitOnChar ',' text.toList)

/-- C3 (counterexample): under the spec's own contract the segment
`" :"` has a colon but its right-hand side `""` fails the int cast, so
the whole parse aborts instead of yielding `{Math: 85, Science: 92}`. -/
theorem parse_marks_counterexample :
    parse_marks "Math:85, Science:92, :, Bad" ≠
      some [("Math", 85), ("Science", 92)] := by
  decide

/-- C3 (amended): segments without a colon are silently dropped and the
well-formed segments parse to trimmed subjects with integer scores —
`"Math:85, Science:92, Bad"` yields exactly `{Math: 85, Science: 92}` —
while a segment whose right-hand side fails the int cast (the `" :"`
segment) aborts the whole operation. -/
theorem parse_marks_spec :
    parse_marks "Math:85, Science:92, Bad" =
      some [("Math", 85), ("Science", 92)] ∧
    (∀ (seg : List Char) (rest : List (List Char)), ':' ∉ seg →
      parseMarkSegs (seg :: rest) = parseMarkSegs rest) ∧
    parse_marks "Math:85, Science:92, :, Bad" = none := by
  refine ⟨by decide, ?_, by decide⟩
  intro seg rest h
  simp [parseMarkSegs, h]

/-- Concrete instance of `parse_marks_spec`: the colon-free segment
`"Bad"` is dropped without affecting the remaining segments. -/
theorem parse_marks_spec_witness :
    (':' ∉ ("Bad".toList)) ∧
    parseMarkSegs ["Bad".toList, "Math:85".toList] =
      parseMarkSegs ["Math:85".toList] :=
  ⟨by decide, parse_marks_spec.2.1 ("Bad".toList) ["Math:85".toList] (by decide)⟩

end ScholarSync
